import Mathlib

/-!
Verification of `src/pages/api/edge/metatags.ts`: a shallow embedding of the
metatags edge endpoint (URL validation, access gate, fetch, tag extraction,
image URL resolution, usage recording, response formatting) together with
theorems settling the specification claims about it.

External effects (token verification, rate limiting, the outbound fetch and
the usage-recording call) are modelled as an event trace; the third-party
HTML parser's output is modelled as an explicit node tree given as input.
-/

namespace Metatags

/-- A node of the parsed HTML tree produced by the `ultrahtml` parser:
element nodes carry a tag name, an attribute map and children; text nodes
carry their text. The `walk` traversal visits nodes in document order
(depth first, parents before children). -/
inductive Node where
  | element (name : String) (attributes : List (String × String)) (children : List Node)
  | text (value : String)

/-- A JS object with string values, as an association list. Reads take the
first binding for a key. -/
abbrev AttrList := List (String × String)

/-- The transient tag map `obj` built by `getMetaTags` (spec: MetaTagMap).
Writes prepend, reads take the first binding, so a later write for the same
key shadows an earlier one (last-write-wins). -/
abbrev TagMap := List (String × String)

/-- JS property read `o[k]`: `some v` when bound, `none` for `undefined`. -/
def getAttr (attrs : AttrList) (k : String) : Option String :=
  (attrs.find? (fun p => p.1 == k)).map (fun p => p.2)

/-- JS property write `o[k] = v`. -/
def setTag (m : TagMap) (k v : String) : TagMap := (k, v) :: m

/-- Read from the tag map (same object semantics as `getAttr`). -/
def lookupTag (m : TagMap) (k : String) : Option String := getAttr m k

/-- JS truthiness of a string-or-undefined value: `undefined` and `""` are
falsy, every other string is truthy. -/
def truthy : Option String → Bool
  | some s => s != ""
  | none => false

/-- The JS `||` operator on string-or-undefined values: the left operand if
it is truthy, otherwise the right operand (whatever it is). -/
def jsOr (a b : Option String) : Option String :=
  if truthy a then a else b

/-- JS coercion of a property key: `obj[property]` with `property : string |
undefined` uses the literal key `"undefined"` when the value is `undefined`. -/
def jsPropKey : Option String → String
  | some k => k
  | none => "undefined"

/-- Model of `he.decode` (the third-party HTML-entity decoder) restricted to
the basic named and numeric entities; all other text passes through
unchanged. Matches the source's `escapeEntities` helper, which just calls
`he.decode`. -/
def decodeEntities : List Char → List Char
  | [] => []
  | '&' :: 'a' :: 'm' :: 'p' :: ';' :: rest => '&' :: decodeEntities rest
  | '&' :: 'l' :: 't' :: ';' :: rest => '<' :: decodeEntities rest
  | '&' :: 'g' :: 't' :: ';' :: rest => '>' :: decodeEntities rest
  | '&' :: 'q' :: 'u' :: 'o' :: 't' :: ';' :: rest => '"' :: decodeEntities rest
  | '&' :: '#' :: '3' :: '9' :: ';' :: rest => '\x27' :: decodeEntities rest
  | c :: rest => c :: decodeEntities rest

def escapeEntities (s : String) : String := String.mk (decodeEntities s.data)

/-- JS read of `node.value`: text nodes carry their text, element nodes have
no `value` property (`undefined`). -/
def nodeValue : Node → Option String
  | .text v => some v
  | .element _ _ _ => none

/-- JS read of `node.children[0].value`: `none` when the access throws
(no child at index 0, or `he.decode(undefined)` on an element child). -/
def firstChildValue : List Node → Option String
  | [] => none
  | c :: _ => nodeValue c

/-- The body of the `walk` callback in `getMetaTags`, applied to one element
node: the `title` branch reads `node.children[0].value` (a thrown access is
`none`); every other element derives `property` from
`name || property || itemprop || rel`, `content` from `content || href`,
skips the node when `content` is not a string, and otherwise stores
`obj[property] = escapeEntities(content)`. -/
def applyElement (obj : TagMap) (name : String) (attrs : AttrList)
    (children : List Node) : Option TagMap :=
  let property :=
    jsOr (jsOr (jsOr (getAttr attrs "name") (getAttr attrs "property"))
      (getAttr attrs "itemprop")) (getAttr attrs "rel")
  let content := jsOr (getAttr attrs "content") (getAttr attrs "href")
  if name = "title" then
    match firstChildValue children with
    | some v => some (setTag obj "title" (escapeEntities v))
    | none => none
  else
    match content with
    | none => some obj
    | some c => some (setTag obj (jsPropKey property) (escapeEntities c))

/-- The `walk` traversal of `getMetaTags` over a list of sibling subtrees:
document order, each element node processed by `applyElement` before its
children are visited. `none` reports the uncaught error thrown inside the
callback on a `title` element without a usable first child. -/
def visitList : TagMap → List Node → Option TagMap
  | obj, [] => some obj
  | obj, Node.text _ :: rest => visitList obj rest
  | obj, Node.element name attrs children :: rest =>
    match applyElement obj name attrs children with
    | none => none
    | some o =>
      match visitList o children with
      | none => none
      | some o2 => visitList o2 rest

/-- The whole traversal of `getMetaTags`, starting from the empty object. -/
def extract (ast : List Node) : Option TagMap := visitList [] ast

/-- `const title = obj["og:title"] || obj["twitter:title"] || obj["title"]`. -/
def chainTitle (m : TagMap) : Option String :=
  jsOr (jsOr (lookupTag m "og:title") (lookupTag m "twitter:title"))
    (lookupTag m "title")

/-- `const description = obj["description"] || obj["og:description"] ||
obj["twitter:description"]`. -/
def chainDescription (m : TagMap) : Option String :=
  jsOr (jsOr (lookupTag m "description") (lookupTag m "og:description"))
    (lookupTag m "twitter:description")

/-- `const image = obj["og:image"] || obj["twitter:image"] ||
obj["image_src"] || obj["icon"] || obj["shortcut icon"]`. -/
def chainImage (m : TagMap) : Option String :=
  jsOr (jsOr (jsOr (jsOr (lookupTag m "og:image") (lookupTag m "twitter:image"))
    (lookupTag m "image_src")) (lookupTag m "icon")) (lookupTag m "shortcut icon")

/-! URL model: the pieces of the WHATWG `URL` platform class that the
endpoint touches (`new URL(s)` for validation and destructuring into
`protocol`/`host`, and `new URL(ref, base)` against an origin base). -/

/-- The components of a parsed absolute URL: `protocol` keeps its trailing
colon (`"https:"`), `host` is the authority (host and optional port), and
`path` is the serialized pathname (`"/"` when the input has none). -/
structure URLParts where
  protocol : String
  host : String
  path : String
deriving Repr, DecidableEq

/-- Split a character list at the first `"://"`, returning the scheme part
and the remainder. -/
def splitSchemeAux : List Char → Option (List Char × List Char)
  | [] => none
  | ':' :: '/' :: '/' :: rest => some ([], rest)
  | c :: rest =>
    match splitSchemeAux rest with
    | some (pre, post) => some (c :: pre, post)
    | none => none

/-- A syntactically valid URL scheme: a letter followed by letters, digits,
`+`, `-` or `.` (WHATWG). -/
def validScheme : List Char → Bool
  | [] => false
  | c :: rest =>
    c.isAlpha && rest.all (fun d => d.isAlphanum || d = '+' || d = '-' || d = '.')

/-- Model of `new URL(s)` for hierarchical (`scheme://…`) URLs: `none` when
the constructor throws (no `://`, ill-formed scheme, or empty host). -/
def parseURL (s : String) : Option URLParts :=
  match splitSchemeAux s.data with
  | none => none
  | some (scheme, rest) =>
    if validScheme scheme then
      let host := rest.takeWhile (fun c => c != '/')
      let path := rest.dropWhile (fun c => c != '/')
      if host = [] then none
      else some ⟨String.mk scheme ++ ":", String.mk host,
        if path = [] then "/" else String.mk path⟩
    else none

/-- Modelled from the spec: `isValidUrl` is imported from `@/lib/utils`,
which is not among the sources here. Per the spec (section 4.1 "URL
Validator") it holds iff the string is present and parses as an absolute
URL with an HTTP(S) scheme. -/
def isValidUrl : Option String → Bool
  | none => false
  | some s =>
    match parseURL s with
    | some u => u.protocol == "http:" || u.protocol == "https:"
    | none => false

/-- Model of `new URL(ref, base).toString()` where `base` is an origin
`protocol//host` (so the base path is `/`), for the hierarchical reference
shapes the endpoint can meet: an absolute `scheme://…` reference stands
alone; a `//…` reference takes the base protocol (throwing on an empty
host); a `/…` reference is absolute-path against the origin; anything else
is resolved against the origin's root path. `none` models a thrown
constructor. WHATWG output canonicalization (percent-encoding, backslash
and dot-segment normalization, tab and newline stripping, host case
folding) is not modelled, so theorems rely on this function only where the
outcome is pinned by hypothesis or at already-canonical concrete inputs. -/
def resolveRef (ref : String) (protocol host : String) : Option String :=
  match parseURL ref with
  | some u => some (u.protocol ++ "//" ++ u.host ++ u.path)
  | none =>
    match ref.data with
    | '/' :: '/' :: rest =>
      let h := rest.takeWhile (fun c => c != '/')
      let p := rest.dropWhile (fun c => c != '/')
      if h = [] then none
      else some (protocol ++ "//" ++ String.mk h ++
        (if p = [] then "/" else String.mk p))
    | '/' :: _ => some (protocol ++ "//" ++ host ++ ref)
    | _ => some (protocol ++ "//" ++ host ++ "/" ++ ref)

/-- `getRelativeUrl` from the source: `null` for a missing or empty image
value, the value unchanged when it is already a valid URL, and otherwise
`new URL(imageUrl, protocol//host).toString()` against the page URL's
origin. `Except.error ()` models an uncaught thrown `URL` constructor. -/
def getRelativeUrl (url : String) (imageUrl : Option String) :
    Except Unit (Option String) :=
  match imageUrl with
  | none => .ok none
  | some img =>
    if img = "" then .ok none
    else if isValidUrl (some img) then .ok (some img)
    else
      match parseURL url with
      | none => .error ()
      | some u =>
        match resolveRef img u.protocol u.host with
        | some r => .ok (some r)
        | none => .error ()

/-! The request pipeline: external effects as an event trace. -/

/-- Observable calls to the endpoint's external collaborators, in the order
the handler issues them: `getToken` (session verification), the
`ratelimit.limit` check with its bucket key, the outbound page fetch, and
the `recordMetatags` usage-recording call with its missing-metadata flag. -/
inductive Ev where
  | tokenVerify
  | ratelimitCheck (key : String)
  | fetch (url : String)
  | record (url : String) (missing : Bool)
deriving Repr, DecidableEq

/-- The value of the `metatags` object built by `getMetaTags`: `title` and
`description` are `string | undefined`, `image` (already resolved) is
`string | null`. -/
structure MetaResult where
  title : Option String
  description : Option String
  image : Option String
deriving Repr, DecidableEq

/-- `getMetaTags(url, ev)` given the parsed tree of the fetched page: runs
the traversal, computes the three `||`-chains, dispatches
`ev.waitUntil(recordMetatags(url, title && description && image ? false :
true))`, and then builds the result, resolving the raw image value. Errors
model uncaught exceptions (a bad `title` access during the walk, or a
throwing `URL` constructor during resolution). -/
def getMetaTags (url : String) (ast : List Node) :
    List Ev × Except Unit MetaResult :=
  match extract ast with
  | none => ([], .error ())
  | some obj =>
    let title := chainTitle obj
    let description := chainDescription obj
    let image := chainImage obj
    let missing := !(truthy title && truthy description && truthy image)
    match getRelativeUrl url image with
    | .error _ => ([Ev.record url missing], .error ())
    | .ok img => ([Ev.record url missing], .ok ⟨title, description, img⟩)

/-- Escaping of one character inside a JSON string literal: quote and
backslash get a backslash in front, a newline becomes the two-character
escape, anything else stands for itself. -/
def jsonEscapeChar (c : Char) : List Char :=
  if c = '\x22' ∨ c = '\x5c' then ['\x5c', c]
  else if c = '\n' then ['\x5c', 'n']
  else [c]

/-- A JSON string literal around the escaped characters of `s`. -/
def jsonString (s : String) : String :=
  "\x22" ++ String.mk (s.data.map jsonEscapeChar).flatten ++ "\x22"

/-- Comma-join of serialized fields. -/
def joinComma : List String → String
  | [] => ""
  | [x] => x
  | x :: y :: rest => x ++ "," ++ joinComma (y :: rest)

/-- Model of `JSON.stringify(metatags)`: keys in insertion order `title`,
`description`, `image`; a key whose value is `undefined` (`title`,
`description`) is dropped entirely, while the `image` key is always present
and serializes `null` when the resolver returned null. -/
def stringifyMeta (r : MetaResult) : String :=
  let fields :=
    (match r.title with
     | some t => ["\x22title\x22:" ++ jsonString t]
     | none => []) ++
    (match r.description with
     | some d => ["\x22description\x22:" ++ jsonString d]
     | none => []) ++
    ["\x22image\x22:" ++ (match r.image with
     | some i => jsonString i
     | none => "null")]
  "\x7b" ++ joinComma fields ++ "\x7d"

/-- The incoming request: its HTTP method and the `url` query parameter
(`none` when absent). -/
structure Request where
  method : String
  urlParam : Option String

/-- The oracle for the external world during one request: the `getToken`
result (`none` = no session; `some e` = a session whose `email` field is
`e`), the rate limiter's `success` verdict for this call, and the parsed
tree of the fetched page (`none` = the fetch or parse throws). -/
structure World where
  session : Option (Option String)
  ratelimitSuccess : Bool
  fetched : Option (List Node)

/-- An HTTP response: status, body, and the explicitly set `Content-Type`
header, if any. -/
structure HttpResponse where
  status : Nat
  body : String
  contentType : Option String
deriving Repr, DecidableEq

/-- `session?.email` truthiness: an authenticated identity is resolved iff
a session exists and its `email` field is a non-empty string. -/
def sessionAuthed (s : Option (Option String)) : Bool :=
  match s with
  | some (some e) => e != ""
  | _ => false

/-- The part of the handler after the access gate: the outbound fetch
followed by `getMetaTags`, whose successful result is serialized into the
200 JSON response. `evs` are the gate's already-issued events. -/
def handlerFetch (url : String) (w : World) (evs : List Ev) :
    List Ev × Except Unit HttpResponse :=
  match w.fetched with
  | none => (evs ++ [Ev.fetch url], .error ())
  | some ast =>
    match getMetaTags url ast with
    | (mevs, .error e) => (evs ++ Ev.fetch url :: mevs, .error e)
    | (mevs, .ok r) =>
      (evs ++ Ev.fetch url :: mevs,
        .ok ⟨200, stringifyMeta r, some "application/json"⟩)

/-- The default-exported request handler: non-GET methods get 405; a
missing or invalid `url` gets 400 before any external call; then `getToken`
runs, unauthenticated callers go through `ratelimit.limit("metatags")` with
a 429 on exhaustion, and the surviving requests fetch and extract. -/
def handler (req : Request) (w : World) : List Ev × Except Unit HttpResponse :=
  if req.method = "GET" then
    if !(isValidUrl req.urlParam) then
      ([], .ok ⟨400, "Invalid URL", none⟩)
    else
      let url := req.urlParam.getD ""
      if !(sessionAuthed w.session) then
        if !w.ratelimitSuccess then
          ([Ev.tokenVerify, Ev.ratelimitCheck "metatags"],
            .ok ⟨429, "Don\x27t DDoS me pls 🥺", none⟩)
        else
          handlerFetch url w [Ev.tokenVerify, Ev.ratelimitCheck "metatags"]
      else
        handlerFetch url w [Ev.tokenVerify]
  else
    ([], .ok ⟨405, "Method " ++ req.method ++ " Not Allowed", none⟩)

/-! Specification-side definitions, used to state the claims (and their
corrections) against the embedded source functions. -/

/-- The spec's `??` chain: the first defined (non-`undefined`) value. -/
def firstDefined : List (Option String) → Option String
  | [] => none
  | some s :: _ => some s
  | none :: rest => firstDefined rest

/-- The JS `||` chain `x || y₁ || … || yₙ` written over a list: the first
truthy operand, or the last operand when none is truthy. -/
def firstTruthy : Option String → List (Option String) → Option String
  | x, [] => x
  | x, y :: rest => if truthy x then x else firstTruthy y rest

/-- The first value in the list that is present and non-empty. -/
def firstNonEmptyOpt : List (Option String) → Option String
  | [] => none
  | some s :: rest => if s = "" then firstNonEmptyOpt rest else some s
  | none :: rest => firstNonEmptyOpt rest

/-- The key the extractor actually uses for a non-`title` element, stated
over the four key-attribute values: the first non-empty of `name`,
`property`, `itemprop`, `rel`; when none is non-empty the JS `||` chain
yields `rel` itself, so the key is `""` when `rel` is present (necessarily
empty) and the literal string `"undefined"` otherwise. -/
def amendedKeyOf (n p i r : Option String) : String :=
  match firstNonEmptyOpt [n, p, i, r] with
  | some k => k
  | none =>
    match r with
    | some _ => ""
    | none => "undefined"

/-- `amendedKeyOf` applied to an element's attributes. -/
def amendedKey (attrs : AttrList) : String :=
  amendedKeyOf (getAttr attrs "name") (getAttr attrs "property")
    (getAttr attrs "itemprop") (getAttr attrs "rel")

/-- The value the extractor actually uses for a non-`title` element: the
`content` attribute when it is non-empty, otherwise the `href` attribute
(which may itself be empty); `none` means the node is skipped. -/
def amendedValue (attrs : AttrList) : Option String :=
  match getAttr attrs "content" with
  | some c => if c = "" then getAttr attrs "href" else some c
  | none => getAttr attrs "href"

/-- A field that is `undefined` or the empty string. -/
def absentOrEmpty : Option String → Bool
  | none => true
  | some s => s == ""

/-- Whether a forest contains, at any depth, a `title` element with no
child node. -/
def hasEmptyTitleL : List Node → Bool
  | [] => false
  | Node.text _ :: rest => hasEmptyTitleL rest
  | Node.element name _ children :: rest =>
    (name == "title" && children.isEmpty) || hasEmptyTitleL children ||
      hasEmptyTitleL rest

/-! Helper lemmas. -/

theorem absentOrEmpty_eq (x : Option String) : absentOrEmpty x = !(truthy x) := by
  cases x with
  | none => rfl
  | some s => simp only [absentOrEmpty, truthy, bne, Bool.not_not]

theorem jsOr_three (a b c : Option String) :
    jsOr (jsOr a b) c = firstTruthy a [b, c] := by
  by_cases ha : truthy a <;> by_cases hb : truthy b <;>
    simp [jsOr, firstTruthy, ha, hb]

theorem jsOr_five (a b c d e : Option String) :
    jsOr (jsOr (jsOr (jsOr a b) c) d) e = firstTruthy a [b, c, d, e] := by
  by_cases ha : truthy a <;> by_cases hb : truthy b <;>
    by_cases hc : truthy c <;> by_cases hd : truthy d <;>
      simp [jsOr, firstTruthy, ha, hb, hc, hd]

theorem lookupTag_setTag (m : TagMap) (k v : String) :
    lookupTag (setTag m k v) k = some v := by
  simp [lookupTag, setTag, getAttr, List.find?]

theorem jsValue_eq (a b : Option String) :
    jsOr a b = (match a with
      | some c => if c = "" then b else some c
      | none => b) := by
  cases a with
  | none => rfl
  | some c => by_cases hc : c = "" <;> simp [jsOr, truthy, hc]

theorem jsKey_eq (n p i r : Option String) :
    jsPropKey (jsOr (jsOr (jsOr n p) i) r) = amendedKeyOf n p i r := by
  rcases n with _ | n <;> rcases p with _ | p <;> rcases i with _ | i <;>
    rcases r with _ | r <;>
      simp only [jsOr, truthy, jsPropKey, amendedKeyOf, firstNonEmptyOpt] <;>
        split_ifs <;> simp_all [jsPropKey]

theorem applyElement_title_nil (obj : TagMap) (attrs : AttrList) :
    applyElement obj "title" attrs [] = none := by
  simp [applyElement, firstChildValue]

theorem applyElement_title_text (obj : TagMap) (attrs : AttrList) (v : String)
    (rest : List Node) :
    applyElement obj "title" attrs (Node.text v :: rest) =
      some (setTag obj "title" (escapeEntities v)) := by
  simp [applyElement, firstChildValue, nodeValue]

/-- A traversal that meets a `title` element with no children throws. -/
theorem visitList_emptyTitle (obj : TagMap) (l : List Node)
    (h : hasEmptyTitleL l = true) : visitList obj l = none := by
  induction obj, l using visitList.induct with
  | case1 obj => simp [hasEmptyTitleL] at h
  | case2 obj v rest ih =>
    simp only [hasEmptyTitleL] at h
    simp only [visitList]
    exact ih h
  | case3 obj name attrs children rest happly =>
    simp only [visitList, happly]
  | case4 obj name attrs children rest o happly hchildren ih =>
    simp only [visitList, happly, hchildren]
  | case5 obj name attrs children rest o happly o2 hchildren ih1 ih2 =>
    simp only [hasEmptyTitleL, Bool.or_eq_true, Bool.and_eq_true, beq_iff_eq,
      List.isEmpty_iff] at h
    rcases h with (⟨hn, hc⟩ | hc) | hr
    · subst hn; subst hc
      rw [applyElement_title_nil] at happly
      exact absurd happly (by simp)
    · rw [ih1 hc] at hchildren
      exact absurd hchildren (by simp)
    · simp only [visitList, happly, hchildren]
      exact ih2 hr

/-- `getMetaTags` when the walk succeeds and image resolution succeeds. -/
theorem getMetaTags_ok (url : String) (ast : List Node) (m : TagMap)
    (img : Option String) (h1 : extract ast = some m)
    (h2 : getRelativeUrl url (chainImage m) = .ok img) :
    getMetaTags url ast =
      ([Ev.record url (!(truthy (chainTitle m) && truthy (chainDescription m) &&
          truthy (chainImage m)))],
        .ok ⟨chainTitle m, chainDescription m, img⟩) := by
  unfold getMetaTags
  rw [h1]
  simp only [h2]

/-- `getMetaTags` when the walk succeeds but image resolution throws. -/
theorem getMetaTags_err (url : String) (ast : List Node) (m : TagMap)
    (h1 : extract ast = some m)
    (h2 : getRelativeUrl url (chainImage m) = .error ()) :
    getMetaTags url ast =
      ([Ev.record url (!(truthy (chainTitle m) && truthy (chainDescription m) &&
          truthy (chainImage m)))], .error ()) := by
  unfold getMetaTags
  rw [h1]
  simp only [h2]

/-- The only event `getMetaTags` itself emits is a single `record`. -/
theorem getMetaTags_events (url : String) (ast : List Node) :
    (getMetaTags url ast).1 = [] ∨
      ∃ b, (getMetaTags url ast).1 = [Ev.record url b] := by
  cases h : extract ast with
  | none =>
    left
    unfold getMetaTags
    rw [h]
  | some m =>
    cases hr : getRelativeUrl url (chainImage m) with
    | error e =>
      right
      exact ⟨_, by rw [getMetaTags_err url ast m h (by cases e; exact hr)]⟩
    | ok img =>
      right
      exact ⟨_, by rw [getMetaTags_ok url ast m img h hr]⟩

/-- The fetch-and-extract tail never emits a rate-limiter event. -/
theorem handlerFetch_mem_ratelimit (url : String) (w : World) (evs : List Ev)
    (k : String) :
    (Ev.ratelimitCheck k ∈ (handlerFetch url w evs).1 ↔
      Ev.ratelimitCheck k ∈ evs) := by
  unfold handlerFetch
  cases hf : w.fetched with
  | none => simp
  | some ast =>
    have hev := getMetaTags_events url ast
    rcases hg : getMetaTags url ast with ⟨mevs, res⟩
    rw [hg] at hev
    rcases hev with h | ⟨b, h⟩ <;> subst h <;> cases res <;> simp [hg]

/-! Claim C1. -/

/-- Claim C1 as stated is false on the code: the final fields are computed
with JS `||`, not `??`, so they are not the first *defined* map value. On a
document whose `og:title` is stored as the empty string (via an empty
`content` and `href`) and whose `twitter:title` is `"X"`, the code's title
is `"X"` while the first defined value of the chain is `""`. -/
theorem C1_first_defined_counterexample :
    extract [Node.element "meta"
        [("property", "og:title"), ("content", ""), ("href", "")] [],
      Node.element "meta" [("name", "twitter:title"), ("content", "X")] []] =
      some [("twitter:title", "X"), ("og:title", "")]
    ∧ chainTitle [("twitter:title", "X"), ("og:title", "")] = some "X"
    ∧ firstDefined [lookupTag [("twitter:title", "X"), ("og:title", "")] "og:title",
        lookupTag [("twitter:title", "X"), ("og:title", "")] "twitter:title",
        lookupTag [("twitter:title", "X"), ("og:title", "")] "title"] = some ""
    ∧ (some "X" : Option String) ≠ some "" := by
  refine ⟨?_, rfl, rfl, by decide⟩
  simp only [extract, visitList]; rfl

/-- Claim C1, amended: each final field is the first *truthy* value of its
chain (JS `||`: `undefined` and `""` both fall through; the last chain
entry is returned as-is), with the claimed key orders `og:title`,
`twitter:title`, `title`; `description`, `og:description`,
`twitter:description`; `og:image`, `twitter:image`, `image_src`, `icon`,
`shortcut icon`. -/
theorem C1_field_precedence (m : TagMap) :
    chainTitle m = firstTruthy (lookupTag m "og:title")
        [lookupTag m "twitter:title", lookupTag m "title"]
    ∧ chainDescription m = firstTruthy (lookupTag m "description")
        [lookupTag m "og:description", lookupTag m "twitter:description"]
    ∧ chainImage m = firstTruthy (lookupTag m "og:image")
        [lookupTag m "twitter:image", lookupTag m "image_src",
          lookupTag m "icon", lookupTag m "shortcut icon"] :=
  ⟨jsOr_three _ _ _, jsOr_three _ _ _, jsOr_five _ _ _ _ _⟩

/-! Claim C2. -/

/-- Claim C2 as stated is false on the code: an empty-string map value does
*not* short-circuit the fallback chain. On a map binding `description` to
`""` (reachable: a `meta` with `name="description"`, `content=""` and
`href=""`) and `og:description` to `"D2"`, the final description is `"D2"`,
not the empty string the claim requires. -/
theorem C2_empty_short_circuit_counterexample :
    extract [Node.element "meta"
        [("name", "description"), ("content", ""), ("href", "")] [],
      Node.element "meta" [("property", "og:description"), ("content", "D2")] []] =
      some [("og:description", "D2"), ("description", "")]
    ∧ lookupTag [("og:description", "D2"), ("description", "")] "description" =
        some ""
    ∧ chainDescription [("og:description", "D2"), ("description", "")] = some "D2"
    ∧ (some "D2" : Option String) ≠ some "" := by
  refine ⟨?_, rfl, rfl, by decide⟩
  simp only [extract, visitList]; rfl

/-- Claim C2, amended: an empty-string map value counts as *absent* for the
precedence computation — when a leading key of a chain is bound to `""`,
the `||` chain ignores it and the final field is computed from the
remaining keys. -/
theorem C2_empty_falls_through (m : TagMap) :
    (lookupTag m "og:title" = some "" →
      chainTitle m = jsOr (lookupTag m "twitter:title") (lookupTag m "title"))
    ∧ (lookupTag m "description" = some "" →
      chainDescription m =
        jsOr (lookupTag m "og:description") (lookupTag m "twitter:description"))
    ∧ (lookupTag m "og:image" = some "" →
      chainImage m = jsOr (jsOr (jsOr (lookupTag m "twitter:image")
        (lookupTag m "image_src")) (lookupTag m "icon"))
          (lookupTag m "shortcut icon")) := by
  refine ⟨fun h => ?_, fun h => ?_, fun h => ?_⟩
  · simp [chainTitle, h, jsOr, truthy]
  · simp [chainDescription, h, jsOr, truthy]
  · simp [chainImage, h, jsOr, truthy]

theorem C2_empty_falls_through_witness :
    chainDescription [("og:description", "E"), ("description", "")] =
      jsOr (lookupTag [("og:description", "E"), ("description", "")] "og:description")
        (lookupTag [("og:description", "E"), ("description", "")] "twitter:description") :=
  (C2_empty_falls_through [("og:description", "E"), ("description", "")]).2.1 rfl

/-! Claim C3. -/

/-- Claim C3 as stated is false on the code: the value is *not* the first
present attribute among `content`, `href`, and a node with a value
attribute can still be skipped. On `<meta name="og:title" content="">` the
`content` attribute is present (so the claim stores `""` under
`og:title`), but `content || href` is not a string, so the code skips the
node and the extracted map is empty. -/
theorem C3_store_step_counterexample :
    getAttr [("name", "og:title"), ("content", "")] "content" = some ""
    ∧ applyElement [] "meta" [("name", "og:title"), ("content", "")] [] = some []
    ∧ extract [Node.element "meta" [("name", "og:title"), ("content", "")] []] =
        some []
    ∧ lookupTag [] "og:title" = none := by
  refine ⟨rfl, rfl, ?_, rfl⟩
  simp only [extract, visitList]; rfl

/-- Claim C3, amended: for a non-`title` element the key is the first
*non-empty* attribute among `name`, `property`, `itemprop`, `rel` (when
all are empty or absent the JS `||` chain leaves `rel`'s own value, giving
the key `""` when `rel` is present and the literal key `"undefined"`
otherwise); the value is the `content` attribute when non-empty, else the
`href` attribute; when that leaves no string the node is skipped, and
otherwise the entity-decoded value is stored under the key, overwriting
any prior value for that key (last-write-wins). -/
theorem C3_store_step (obj : TagMap) (name : String) (attrs : AttrList)
    (children : List Node) (h : ¬ name = "title") :
    applyElement obj name attrs children =
      some (match amendedValue attrs with
        | none => obj
        | some v => setTag obj (amendedKey attrs) (escapeEntities v))
    ∧ ∀ (m : TagMap) (k v : String), lookupTag (setTag m k v) k = some v := by
  refine ⟨?_, lookupTag_setTag⟩
  have hv : jsOr (getAttr attrs "content") (getAttr attrs "href") =
      amendedValue attrs := by
    rw [jsValue_eq]
    unfold amendedValue
    rfl
  have hk : jsPropKey (jsOr (jsOr (jsOr (getAttr attrs "name")
      (getAttr attrs "property")) (getAttr attrs "itemprop"))
        (getAttr attrs "rel")) = amendedKey attrs :=
    jsKey_eq _ _ _ _
  simp only [applyElement, if_neg h, hv, hk]
  cases amendedValue attrs <;> rfl

theorem C3_store_step_witness :
    applyElement [] "link" [("rel", "icon"), ("href", "/f.png")] [] =
      some [("icon", "/f.png")] :=
  ((C3_store_step [] "link" [("rel", "icon"), ("href", "/f.png")] []
    (by decide)).1).trans (by rfl)

/-! Claim C4. -/

/-- Claim C4 as stated is false on the code: the missing flag is computed
by JS truthiness (`title && description && image ? false : true`), not by
absence. On a document whose `title` element has an empty text child and
which carries a description and an absolute icon, all three final fields
are present (the title is the defined value `""`), yet the recorded flag
is `true`. -/
theorem C4_missing_flag_counterexample :
    getMetaTags "https://p.com/a"
        [Node.element "title" [] [Node.text ""],
          Node.element "meta" [("name", "description"), ("content", "D")] [],
          Node.element "link" [("rel", "icon"), ("href", "http://x.com/i.png")] []] =
      ([Ev.record "https://p.com/a" true],
        .ok ⟨some "", some "D", some "http://x.com/i.png"⟩)
    ∧ (some "" : Option String) ≠ none
    ∧ (some "D" : Option String) ≠ none
    ∧ (some "http://x.com/i.png" : Option String) ≠ none := by
  refine ⟨?_, by decide, by decide, by decide⟩
  exact (getMetaTags_ok _ _
    [("icon", "http://x.com/i.png"), ("description", "D"), ("title", "")] _
    (by simp only [extract, visitList]; rfl) rfl).trans (by rfl)

/-- Claim C4, amended: for every completed extraction the usage-recording
call fires exactly once, keyed by the page URL, with the missing flag true
iff at least one of the three final fields is absent *or empty*. -/
theorem C4_record_flag (url : String) (ast : List Node) (m : TagMap)
    (h : extract ast = some m) :
    (getMetaTags url ast).1 =
      [Ev.record url (absentOrEmpty (chainTitle m) ||
        absentOrEmpty (chainDescription m) || absentOrEmpty (chainImage m))] := by
  have hb : (absentOrEmpty (chainTitle m) || absentOrEmpty (chainDescription m) ||
      absentOrEmpty (chainImage m)) =
      !(truthy (chainTitle m) && truthy (chainDescription m) &&
        truthy (chainImage m)) := by
    rw [absentOrEmpty_eq, absentOrEmpty_eq, absentOrEmpty_eq]
    cases truthy (chainTitle m) <;> cases truthy (chainDescription m) <;>
      cases truthy (chainImage m) <;> rfl
  rw [hb]
  cases hr : getRelativeUrl url (chainImage m) with
  | error e =>
    cases e
    rw [getMetaTags_err url ast m h hr]
  | ok img =>
    rw [getMetaTags_ok url ast m img h hr]

theorem C4_record_flag_witness :
    (getMetaTags "https://w.com/"
      [Node.element "link" [("rel", "icon"), ("href", "http://w.com/i.png")] []]).1 =
      [Ev.record "https://w.com/" true] :=
  (C4_record_flag _ _ [("icon", "http://w.com/i.png")]
    (by simp only [extract, visitList]; rfl)).trans (by rfl)

/-! Claim C6. -/

/-- Claim C6: a parsed document containing a `title` element with no child
node makes the extraction step fail with the uncaught error (`extract`
reports it and `getMetaTags` propagates it, with no recording event — the
request surfaces it as a 500); a `title` element whose first child is a
text node sets the page title to the entity-decoded text of that child. -/
theorem C6_title_extraction (ast : List Node) (url : String) :
    (hasEmptyTitleL ast = true →
      extract ast = none ∧ getMetaTags url ast = ([], .error ()))
    ∧ ∀ (obj : TagMap) (attrs : AttrList) (v : String) (rest : List Node),
        applyElement obj "title" attrs (Node.text v :: rest) =
          some (setTag obj "title" (escapeEntities v)) := by
  refine ⟨fun h => ?_, applyElement_title_text⟩
  have he : extract ast = none := visitList_emptyTitle [] ast h
  refine ⟨he, ?_⟩
  unfold getMetaTags
  rw [he]

theorem C6_title_extraction_witness :
    hasEmptyTitleL [Node.element "title" [] []] = true
    ∧ extract [Node.element "title" [] []] = none
    ∧ getMetaTags "https://e.com/" [Node.element "title" [] []] =
        ([], .error ()) := by
  have h : hasEmptyTitleL [Node.element "title" [] []] = true := by
    simp [hasEmptyTitleL]
  exact ⟨h,
    ((C6_title_extraction [Node.element "title" [] []] "https://e.com/").1 h).1,
    ((C6_title_extraction [Node.element "title" [] []] "https://e.com/").1 h).2⟩

/-! Claims C7 to C10: the request handler. -/

/-- The three outcomes of the access gate on a valid GET request. -/
theorem handler_gate (req : Request) (w : World) (hm : req.method = "GET")
    (hv : isValidUrl req.urlParam = true) :
    (sessionAuthed w.session = true →
      handler req w = handlerFetch (req.urlParam.getD "") w [Ev.tokenVerify])
    ∧ (sessionAuthed w.session = false → w.ratelimitSuccess = true →
      handler req w = handlerFetch (req.urlParam.getD "") w
        [Ev.tokenVerify, Ev.ratelimitCheck "metatags"])
    ∧ (sessionAuthed w.session = false → w.ratelimitSuccess = false →
      handler req w = ([Ev.tokenVerify, Ev.ratelimitCheck "metatags"],
        .ok ⟨429, "Don\x27t DDoS me pls 🥺", none⟩)) :=
  ⟨fun ha => by simp [handler, hm, hv, ha],
    fun ha hs => by simp [handler, hm, hv, ha, hs],
    fun ha hs => by simp [handler, hm, hv, ha, hs]⟩

/-- The fetch-and-extract tail on a successful extraction. -/
theorem handlerFetch_ok (url : String) (w : World) (evs : List Ev)
    (ast : List Node) (mevs : List Ev) (r : MetaResult)
    (hf : w.fetched = some ast) (hg : getMetaTags url ast = (mevs, .ok r)) :
    handlerFetch url w evs = (evs ++ Ev.fetch url :: mevs,
      .ok ⟨200, stringifyMeta r, some "application/json"⟩) := by
  unfold handlerFetch
  rw [hf]
  simp only [hg]

/-- Claim C7: a GET request whose `url` parameter is missing or not a valid
URL is answered with 400 `Invalid URL` and an empty event trace — before
any token verification, rate-limiter check, or network call. -/
theorem C7_invalid_url (req : Request) (w : World) (hm : req.method = "GET")
    (hv : isValidUrl req.urlParam = false) :
    handler req w = ([], .ok ⟨400, "Invalid URL", none⟩) := by
  simp [handler, hm, hv]

theorem C7_invalid_url_witness :
    handler ⟨"GET", some "notaurl"⟩ ⟨none, true, none⟩ =
      ([], .ok ⟨400, "Invalid URL", none⟩)
    ∧ handler ⟨"GET", none⟩ ⟨none, true, none⟩ =
      ([], .ok ⟨400, "Invalid URL", none⟩) :=
  ⟨C7_invalid_url _ _ rfl (by rfl), C7_invalid_url _ _ rfl rfl⟩

/-- Claim C8: on a valid GET request, an authenticated session bypasses the
rate limiter entirely; otherwise the limiter is consulted with the constant
bucket key `metatags`, and on exhaustion the handler answers 429 with the
fixed body and performs no fetch. -/
theorem C8_access_gate (req : Request) (w : World) (hm : req.method = "GET")
    (hv : isValidUrl req.urlParam = true) :
    (sessionAuthed w.session = true →
      ∀ k, Ev.ratelimitCheck k ∉ (handler req w).1)
    ∧ (sessionAuthed w.session = false →
        Ev.ratelimitCheck "metatags" ∈ (handler req w).1
        ∧ (w.ratelimitSuccess = false →
            handler req w = ([Ev.tokenVerify, Ev.ratelimitCheck "metatags"],
              .ok ⟨429, "Don\x27t DDoS me pls 🥺", none⟩)
            ∧ ∀ v, Ev.fetch v ∉ (handler req w).1)) := by
  obtain ⟨hg1, hg2, hg3⟩ := handler_gate req w hm hv
  refine ⟨fun ha k => ?_, fun ha => ⟨?_, fun hs => ⟨hg3 ha hs, fun v => ?_⟩⟩⟩
  · rw [hg1 ha]
    intro hmem
    rw [handlerFetch_mem_ratelimit] at hmem
    simp at hmem
  · cases hs : w.ratelimitSuccess with
    | true =>
      rw [hg2 ha hs]
      rw [handlerFetch_mem_ratelimit]
      simp
    | false =>
      rw [hg3 ha hs]
      simp
  · rw [hg3 ha hs]
    simp

theorem C8_access_gate_witness :
    Ev.ratelimitCheck "metatags" ∈
      (handler ⟨"GET", some "https://e.com/"⟩ ⟨none, false, none⟩).1
    ∧ handler ⟨"GET", some "https://e.com/"⟩ ⟨none, false, none⟩ =
        ([Ev.tokenVerify, Ev.ratelimitCheck "metatags"],
          .ok ⟨429, "Don\x27t DDoS me pls 🥺", none⟩) :=
  have h := (C8_access_gate ⟨"GET", some "https://e.com/"⟩ ⟨none, false, none⟩
    rfl (by rfl)).2 rfl
  ⟨h.1, (h.2 rfl).1⟩

/-- Claim C9 as stated is false on the code: `JSON.stringify` drops
object keys whose value is `undefined`, so a successful response for a
page with no extractable metadata has body `{"image":null}` — it does not
contain the keys `title` and `description`. -/
theorem C9_body_keys_counterexample :
    handler ⟨"GET", some "https://e.com/x"⟩
        ⟨some (some "u"), true, some [Node.element "html" [] []]⟩ =
      ([Ev.tokenVerify, Ev.fetch "https://e.com/x",
          Ev.record "https://e.com/x" true],
        .ok ⟨200, "\x7b\x22image\x22:null\x7d", some "application/json"⟩)
    ∧ ¬ ("\x22title\x22".data <:+: "\x7b\x22image\x22:null\x7d".data)
    ∧ ¬ ("\x22description\x22".data <:+: "\x7b\x22image\x22:null\x7d".data) := by
  refine ⟨?_, by decide, by decide⟩
  simp only [handler, handlerFetch, getMetaTags, extract, visitList]
  rfl

/-- Claim C9, amended: every successful request is answered with HTTP 200,
`Content-Type: application/json`, and the `JSON.stringify` serialization of
the extracted triple, in which the `image` key is always present (`null`
when unresolved) while the `title` and `description` keys are present only
when defined — an absent field's key is omitted from the body. -/
theorem C9_success_response (req : Request) (w : World) (ast : List Node)
    (mevs : List Ev) (r : MetaResult) (hm : req.method = "GET")
    (hv : isValidUrl req.urlParam = true)
    (hgate : sessionAuthed w.session = true ∨ w.ratelimitSuccess = true)
    (hf : w.fetched = some ast)
    (hg : getMetaTags (req.urlParam.getD "") ast = (mevs, .ok r)) :
    (handler req w).2 = .ok ⟨200, stringifyMeta r, some "application/json"⟩
    ∧ stringifyMeta ⟨none, none, none⟩ = "\x7b\x22image\x22:null\x7d"
    ∧ stringifyMeta ⟨some "a", some "b", none⟩ =
        "\x7b\x22title\x22:\x22a\x22,\x22description\x22:\x22b\x22,\x22image\x22:null\x7d"
    ∧ stringifyMeta ⟨none, some "b", some "c"⟩ =
        "\x7b\x22description\x22:\x22b\x22,\x22image\x22:\x22c\x22\x7d" := by
  obtain ⟨hg1, hg2, _⟩ := handler_gate req w hm hv
  refine ⟨?_, rfl, rfl, rfl⟩
  by_cases ha : sessionAuthed w.session = true
  · rw [hg1 ha, handlerFetch_ok _ _ _ _ _ _ hf hg]
  · rcases hgate with ha2 | hs
    · exact absurd ha2 ha
    · rw [hg2 (by simpa using ha) hs, handlerFetch_ok _ _ _ _ _ _ hf hg]

theorem C9_success_response_witness :
    (handler ⟨"GET", some "https://e.com/x"⟩
      ⟨some (some "u"), true,
        some [Node.element "meta" [("name", "og:title"), ("content", "T")] []]⟩).2 =
      .ok ⟨200, stringifyMeta ⟨some "T", none, none⟩, some "application/json"⟩ :=
  (C9_success_response ⟨"GET", some "https://e.com/x"⟩
    ⟨some (some "u"), true,
      some [Node.element "meta" [("name", "og:title"), ("content", "T")] []]⟩
    [Node.element "meta" [("name", "og:title"), ("content", "T")] []]
    [Ev.record "https://e.com/x" true] ⟨some "T", none, none⟩ rfl (by rfl)
    (.inl rfl) rfl
    ((getMetaTags_ok _ _ [("og:title", "T")] none
      (by simp only [extract, visitList]; rfl) rfl).trans (by rfl))).1

/-- Claim C10: the usage-recording call is dispatched before image URL
resolution and its missing flag is computed from the raw, pre-resolution
chain values; when resolving the raw image value throws (the request then
fails as a 500), the single record event has already been emitted. -/
theorem C10_record_before_resolution (url : String) (ast : List Node)
    (m : TagMap) (h1 : extract ast = some m)
    (h2 : getRelativeUrl url (chainImage m) = .error ()) :
    getMetaTags url ast =
      ([Ev.record url (!(truthy (chainTitle m) && truthy (chainDescription m) &&
          truthy (chainImage m)))], .error ()) :=
  getMetaTags_err url ast m h1 h2

theorem C10_record_before_resolution_witness :
    getMetaTags "https://e.com/"
        [Node.element "link" [("rel", "icon"), ("href", "//")] []] =
      ([Ev.record "https://e.com/" true], .error ()) :=
  (C10_record_before_resolution "https://e.com/" _ [("icon", "//")]
    (by simp only [extract, visitList]; rfl) (by rfl)).trans (by rfl)

end Metatags
